import Mathlib

/-!
# EV-Range-Estimator: verification of the specification against the code

Shallow embedding of the EV range estimation pipeline
(`utils.py`, `physics_models.py`, `vehicle_data.py`, `user_interface.py`,
`main.py`) over the real numbers, together with theorems settling the
spec claims.

Python `float` arithmetic is modelled by real arithmetic.  A Python
division whose divisor may be zero raises `ZeroDivisionError`; such
functions are embedded as `Except PyError ℝ`, with an explicit
zero-divisor test mirroring the runtime check Python performs.
-/

open Real

/-- The only error the source code can actually raise in the core
pipeline: Python's `ZeroDivisionError` from a float division by zero. -/
inductive PyError where
  | zeroDivisionError
deriving DecidableEq

/-! ## utils.py -/

/-- Embedding of `utils.convert_kmh_to_ms`: `speed_kmh / 3.6`. -/
noncomputable def convert_kmh_to_ms (speed_kmh : ℝ) : ℝ := speed_kmh / 3.6

/-- Embedding of `utils.convert_ms_to_kmh`: `speed_ms * 3.6`. -/
noncomputable def convert_ms_to_kmh (speed_ms : ℝ) : ℝ := speed_ms * 3.6

/-- Embedding of `utils.convert_degrees_to_radians`: `degrees * math.pi / 180`. -/
noncomputable def convert_degrees_to_radians (degrees : ℝ) : ℝ :=
  degrees * Real.pi / 180

/-- Embedding of `utils.convert_slope_percent_to_radians`: `math.atan(slope_percent / 100)`. -/
noncomputable def convert_slope_percent_to_radians (slope_percent : ℝ) : ℝ :=
  Real.arctan (slope_percent / 100)

/-- Embedding of `utils.convert_watts_to_kwh`: `power_watts / 1000`. -/
noncomputable def convert_watts_to_kwh (power_watts : ℝ) : ℝ := power_watts / 1000

/-! ## vehicle_data.py constants -/

/-- Constant `vehicle_data.GRAVITY`. -/
noncomputable def GRAVITY : ℝ := 9.81

/-- Constant `vehicle_data.AIR_DENSITY`. -/
noncomputable def AIR_DENSITY : ℝ := 1.225

/-! ## physics_models.py -/

/-- Embedding of `physics_models.calculate_rolling_resistance`: `mass * Crr * g`. -/
noncomputable def calculate_rolling_resistance (mass Crr g : ℝ) : ℝ := mass * Crr * g

/-- Embedding of `physics_models.calculate_drag_force`:
`0.5 * Cd * frontal_area * air_density * speed_ms ** 2`. -/
noncomputable def calculate_drag_force (speed_ms Cd frontal_area air_density : ℝ) : ℝ :=
  0.5 * Cd * frontal_area * air_density * speed_ms ^ 2

/-- Embedding of `physics_models.calculate_gradient_force`: `mass * g * math.sin(slope_angle_rad)`. -/
noncomputable def calculate_gradient_force (mass slope_angle_rad g : ℝ) : ℝ :=
  mass * g * Real.sin slope_angle_rad

/-- Embedding of `physics_models.calculate_total_resistance`:
`rolling_force + drag_force + gradient_force`. -/
noncomputable def calculate_total_resistance (rolling_force drag_force gradient_force : ℝ) : ℝ :=
  rolling_force + drag_force + gradient_force

/-- Embedding of `physics_models.calculate_power_at_wheels`: `total_force * speed_ms`. -/
noncomputable def calculate_power_at_wheels (total_force speed_ms : ℝ) : ℝ :=
  total_force * speed_ms

/-- Embedding of `physics_models.calculate_power_from_battery`:
`power_at_wheels / drivetrain_efficiency`.  A zero efficiency makes the
Python float division raise `ZeroDivisionError`. -/
noncomputable def calculate_power_from_battery
    (power_at_wheels drivetrain_efficiency : ℝ) : Except PyError ℝ :=
  if drivetrain_efficiency = 0 then .error .zeroDivisionError
  else .ok (power_at_wheels / drivetrain_efficiency)

/-- Embedding of `physics_models.calculate_energy_per_km`:
`convert_watts_to_kwh(power) / convert_ms_to_kmh(speed_ms)`.  A zero
`speed_km` makes the Python float division raise `ZeroDivisionError`. -/
noncomputable def calculate_energy_per_km
    (power_battery_watts speed_ms : ℝ) : Except PyError ℝ :=
  let power_kwh := convert_watts_to_kwh power_battery_watts
  let speed_km := convert_ms_to_kmh speed_ms
  if speed_km = 0 then .error .zeroDivisionError
  else .ok (power_kwh / speed_km)

/-- Embedding of `physics_models.calculate_usable_battery_energy`:
`battery_capacity_kwh * usable_percent`. -/
noncomputable def calculate_usable_battery_energy (battery_capacity_kwh usable_percent : ℝ) : ℝ :=
  battery_capacity_kwh * usable_percent

/-- Embedding of `physics_models.calculate_range`: `usable_energy_kwh / energy_per_km`.
A zero `energy_per_km` makes the Python float division raise
`ZeroDivisionError`. -/
noncomputable def calculate_range
    (usable_energy_kwh energy_per_km : ℝ) : Except PyError ℝ :=
  if energy_per_km = 0 then .error .zeroDivisionError
  else .ok (usable_energy_kwh / energy_per_km)

/-! ## main.py: the computation performed by one loop iteration of `main`,
as a function of the user-supplied parameters. -/

/-- The intermediate and final quantities `main` computes in one run. -/
structure MainResult where
  rolling : ℝ
  drag : ℝ
  gradient : ℝ
  total_force : ℝ
  power_wheels : ℝ
  power_battery : ℝ
  energy_per_km : ℝ
  usable_energy : ℝ
  range_km : ℝ

/-- The calculation chain of `main.main` (lines 27–81), with the values
gathered from `user_interface` passed as arguments.  Exceptions raised
by any stage propagate (abort the run). -/
noncomputable def runMain (mass rolling_resistance drag_coefficient frontal_area
    battery_capacity speed_kmh slope_percent
    drivetrain_efficiency battery_usable_percent : ℝ) : Except PyError MainResult :=
  let speed_ms := convert_kmh_to_ms speed_kmh
  let slope_rad := convert_slope_percent_to_radians slope_percent
  let rolling := calculate_rolling_resistance mass rolling_resistance GRAVITY
  let drag := calculate_drag_force speed_ms drag_coefficient frontal_area AIR_DENSITY
  let gradient := calculate_gradient_force mass slope_rad GRAVITY
  let total_force := calculate_total_resistance rolling drag gradient
  let power_wheels := calculate_power_at_wheels total_force speed_ms
  match calculate_power_from_battery power_wheels drivetrain_efficiency with
  | .error e => .error e
  | .ok power_battery =>
    match calculate_energy_per_km power_battery speed_ms with
    | .error e => .error e
    | .ok energy_per_km =>
      let usable_energy :=
        calculate_usable_battery_energy battery_capacity battery_usable_percent
      match calculate_range usable_energy energy_per_km with
      | .error e => .error e
      | .ok range_km =>
        .ok ⟨rolling, drag, gradient, total_force, power_wheels,
             power_battery, energy_per_km, usable_energy, range_km⟩

/-! ## user_interface.py

The interactive input loop is modelled by a finite script of input
lines.  Each line the user types either is blank, fails to parse as a
float (`junk`), or parses to a number. -/

/-- One line typed at an `input()` prompt: blank, non-numeric, or a
number. -/
inductive InputLine where
  | blank
  | junk
  | num (v : ℝ)

/-- Embedding of `user_interface.get_user_input`: repeatedly read a
line; a blank line yields the default when one exists (with no bounds
check); a non-parsing line retries; a number below `min_value` or above
`max_value` retries; otherwise the number is returned.  An exhausted
script yields `none` (the Python loop would keep prompting). -/
noncomputable def get_user_input (lines : List InputLine)
    (min_value max_value default_value : Option ℝ) : Option ℝ :=
  match lines with
  | [] => none
  | line :: rest =>
    match line with
    | .blank =>
      if default_value.isSome then default_value
      else get_user_input rest min_value max_value default_value
    | .junk => get_user_input rest min_value max_value default_value
    | .num v =>
      match min_value, max_value with
      | some m, some M =>
        if v < m then get_user_input rest min_value max_value default_value
        else if M < v then get_user_input rest min_value max_value default_value
        else some v
      | some m, none =>
        if v < m then get_user_input rest min_value max_value default_value
        else some v
      | none, some M =>
        if M < v then get_user_input rest min_value max_value default_value
        else some v
      | none, none => some v

/-- Embedding of `user_interface.get_system_parameters`: prompts for the
drivetrain efficiency (min 70, max 98, default 88) and battery usable
percentage (min 70, max 100, default 90) and returns both divided by
100. -/
noncomputable def get_system_parameters (eff_lines usable_lines : List InputLine) :
    Option (ℝ × ℝ) :=
  match get_user_input eff_lines (some 70) (some 98) (some 88) with
  | none => none
  | some efficiency =>
    match get_user_input usable_lines (some 70) (some 100) (some 90) with
    | none => none
    | some usable => some (efficiency / 100, usable / 100)

/-! ## Helper lemmas -/

/-- When no division by zero occurs (nonzero efficiency, nonzero speed
in km/h, nonzero energy-per-km), `runMain` succeeds and every field of
the result is the corresponding arithmetic expression. -/
theorem runMain_ok (mass rr cd fa bat v sp eff up : ℝ)
    (heff : eff ≠ 0) (hv : convert_ms_to_kmh (convert_kmh_to_ms v) ≠ 0)
    (hepk : convert_watts_to_kwh
        (calculate_power_at_wheels
          (calculate_total_resistance
            (calculate_rolling_resistance mass rr GRAVITY)
            (calculate_drag_force (convert_kmh_to_ms v) cd fa AIR_DENSITY)
            (calculate_gradient_force mass (convert_slope_percent_to_radians sp) GRAVITY))
          (convert_kmh_to_ms v) / eff) / convert_ms_to_kmh (convert_kmh_to_ms v) ≠ 0) :
    runMain mass rr cd fa bat v sp eff up = .ok
      { rolling := calculate_rolling_resistance mass rr GRAVITY
        drag := calculate_drag_force (convert_kmh_to_ms v) cd fa AIR_DENSITY
        gradient := calculate_gradient_force mass (convert_slope_percent_to_radians sp) GRAVITY
        total_force := calculate_total_resistance
            (calculate_rolling_resistance mass rr GRAVITY)
            (calculate_drag_force (convert_kmh_to_ms v) cd fa AIR_DENSITY)
            (calculate_gradient_force mass (convert_slope_percent_to_radians sp) GRAVITY)
        power_wheels := calculate_power_at_wheels
            (calculate_total_resistance
              (calculate_rolling_resistance mass rr GRAVITY)
              (calculate_drag_force (convert_kmh_to_ms v) cd fa AIR_DENSITY)
              (calculate_gradient_force mass (convert_slope_percent_to_radians sp) GRAVITY))
            (convert_kmh_to_ms v)
        power_battery := calculate_power_at_wheels
            (calculate_total_resistance
              (calculate_rolling_resistance mass rr GRAVITY)
              (calculate_drag_force (convert_kmh_to_ms v) cd fa AIR_DENSITY)
              (calculate_gradient_force mass (convert_slope_percent_to_radians sp) GRAVITY))
            (convert_kmh_to_ms v) / eff
        energy_per_km := convert_watts_to_kwh
            (calculate_power_at_wheels
              (calculate_total_resistance
                (calculate_rolling_resistance mass rr GRAVITY)
                (calculate_drag_force (convert_kmh_to_ms v) cd fa AIR_DENSITY)
                (calculate_gradient_force mass (convert_slope_percent_to_radians sp) GRAVITY))
              (convert_kmh_to_ms v) / eff) / convert_ms_to_kmh (convert_kmh_to_ms v)
        usable_energy := calculate_usable_battery_energy bat up
        range_km := calculate_usable_battery_energy bat up /
          (convert_watts_to_kwh
            (calculate_power_at_wheels
              (calculate_total_resistance
                (calculate_rolling_resistance mass rr GRAVITY)
                (calculate_drag_force (convert_kmh_to_ms v) cd fa AIR_DENSITY)
                (calculate_gradient_force mass (convert_slope_percent_to_radians sp) GRAVITY))
              (convert_kmh_to_ms v) / eff) / convert_ms_to_kmh (convert_kmh_to_ms v)) } := by
  rw [runMain]
  simp only [calculate_power_from_battery, calculate_energy_per_km, calculate_range,
    if_neg heff, if_neg hv, if_neg hepk]

/-- Any value `get_user_input` returns for a prompt with lower bound
`m`, upper bound `M` and a default `d` lying within the bounds is
itself within the bounds: typed numbers are re-prompted until they pass
the two comparisons, and a blank line returns the default. -/
theorem get_user_input_bounds (m M d : ℝ) (hmd : m ≤ d) (hdM : d ≤ M) :
    ∀ (lines : List InputLine) (v : ℝ),
      get_user_input lines (some m) (some M) (some d) = some v → m ≤ v ∧ v ≤ M := by
  intro lines
  induction lines with
  | nil => intro v h; simp [get_user_input] at h
  | cons line rest ih =>
    intro v h
    cases line with
    | blank =>
      rw [get_user_input] at h
      simp only [Option.isSome_some, if_true, Option.some.injEq] at h
      subst h
      exact ⟨hmd, hdM⟩
    | junk =>
      rw [get_user_input] at h
      exact ih v h
    | num w =>
      rw [get_user_input] at h
      by_cases h1 : w < m
      · rw [if_pos h1] at h; exact ih v h
      · rw [if_neg h1] at h
        by_cases h2 : M < w
        · rw [if_pos h2] at h; exact ih v h
        · rw [if_neg h2] at h
          simp only [Option.some.injEq] at h
          subst h
          exact ⟨le_of_not_lt h1, le_of_not_lt h2⟩

/-- Exact evaluation of the pipeline on the flat-road scenario of the
spec (mass 1500, Crr 0.010, Cd 0.28, area 2.2, battery 50, speed
100 km/h, slope 0 %, efficiency 0.88, usable 0.90). -/
theorem runMain_scenarioA :
    runMain 1500 0.010 0.28 2.2 50 100 0 0.88 0.90 =
      .ok ⟨2943 / 20, 94325 / 324, 0, 177502 / 405, 8875100 / 729,
           110938750 / 8019, 88751 / 641520, 45, 28868400 / 88751⟩ := by
  rw [runMain]
  norm_num [convert_kmh_to_ms, convert_slope_percent_to_radians, calculate_rolling_resistance,
    calculate_drag_force, calculate_gradient_force, calculate_total_resistance,
    calculate_power_at_wheels, calculate_power_from_battery, calculate_energy_per_km,
    convert_watts_to_kwh, convert_ms_to_kmh, calculate_usable_battery_energy, calculate_range,
    GRAVITY, AIR_DENSITY, Real.arctan_zero, Real.sin_zero]

/-! ## Claim theorems -/

/-- C1 (counterexample): on the spec's scenario-A inputs (mass 1500 kg,
Cd 0.28, area 2.2 m², Crr 0.010, battery 50 kWh, speed 100 km/h, slope
0 %, efficiency 0.88, usable 0.90) the pipeline's drag force is
291.13 N, not within 50 N of the claimed 235.4 N; total force, wheel
power and range likewise miss the claimed 382.5 N, 10626 W and
372.6 km by far more than any floating tolerance. -/
theorem C1_scenarioA_claimed_values_wrong :
    runMain 1500 0.010 0.28 2.2 50 100 0 0.88 0.90 =
      .ok ⟨2943 / 20, 94325 / 324, 0, 177502 / 405, 8875100 / 729,
           110938750 / 8019, 88751 / 641520, 45, 28868400 / 88751⟩ ∧
    50 < |(94325 / 324 : ℝ) - 235.4| ∧
    50 < |(177502 / 405 : ℝ) - 382.5| ∧
    1500 < |(8875100 / 729 : ℝ) - 10626| ∧
    40 < |(28868400 / 88751 : ℝ) - 372.6| := by
  refine ⟨runMain_scenarioA, ?_, ?_, ?_, ?_⟩
  · rw [abs_of_pos (by norm_num)]; norm_num
  · rw [abs_of_pos (by norm_num)]; norm_num
  · rw [abs_of_pos (by norm_num)]; norm_num
  · rw [abs_of_neg (by norm_num)]; norm_num

/-- C1 (amended): on the scenario-A inputs the pipeline yields rolling
resistance exactly 147.15 N, drag ≈ 291.13 N, gradient 0, total
≈ 438.28 N, power at wheels ≈ 12174.35 W, battery power ≈ 13834.49 W,
energy per km ≈ 0.13834 kWh/km, usable energy exactly 45 kWh and range
≈ 325.27 km. -/
theorem C1_scenarioA_pipeline :
    runMain 1500 0.010 0.28 2.2 50 100 0 0.88 0.90 =
      .ok ⟨2943 / 20, 94325 / 324, 0, 177502 / 405, 8875100 / 729,
           110938750 / 8019, 88751 / 641520, 45, 28868400 / 88751⟩ ∧
    (2943 / 20 : ℝ) = 147.15 ∧
    |(94325 / 324 : ℝ) - 291.13| < 0.01 ∧
    |(177502 / 405 : ℝ) - 438.28| < 0.01 ∧
    |(8875100 / 729 : ℝ) - 12174.35| < 0.01 ∧
    |(110938750 / 8019 : ℝ) - 13834.49| < 0.01 ∧
    |(88751 / 641520 : ℝ) - 0.13834| < 0.0001 ∧
    |(28868400 / 88751 : ℝ) - 325.27| < 0.01 := by
  refine ⟨runMain_scenarioA, by norm_num, ?_, ?_, ?_, ?_, ?_, ?_⟩ <;>
    · rw [abs_sub_lt_iff]; norm_num

/-- C2 (code evaluated at the failing inputs): `calculate_range` does
not reject non-positive consumption.  At usable energy 45 kWh and
energy-per-km −0.1 kWh/km it returns −450 km; at energy-per-km 0 the
division raises `ZeroDivisionError`; and the full pipeline on a −10 %
downhill at 10 km/h (where the gradient force exceeds rolling plus
drag) returns a negative range with no error.  No
`NonPositiveConsumption` error exists anywhere in the code. -/
theorem C2_nonpositive_consumption_not_rejected :
    calculate_range 45 (-(1 / 10)) = .ok (-450) ∧
    calculate_range 45 0 = .error .zeroDivisionError ∧
    ∃ r, runMain 1500 0.010 0.28 2.2 50 10 (-10) 0.88 0.90 = .ok r ∧ r.range_km < 0 := by
  refine ⟨by rw [calculate_range, if_neg (by norm_num)]; norm_num,
          by rw [calculate_range, if_pos rfl], ?_⟩
  have hsq2 : Real.sqrt (1 + ((-10 : ℝ) / 100) ^ 2) ^ 2 = 1 + ((-10 : ℝ) / 100) ^ 2 :=
    Real.sq_sqrt (by norm_num)
  have hsq0 : (0 : ℝ) < Real.sqrt (1 + ((-10 : ℝ) / 100) ^ 2) :=
    Real.sqrt_pos.2 (by norm_num)
  have hsqle : Real.sqrt (1 + ((-10 : ℝ) / 100) ^ 2) ≤ 1.005 := by nlinarith [hsq0, hsq2]
  have hs : Real.sin (Real.arctan ((-10 : ℝ) / 100)) ≤ -(99 / 1000) := by
    rw [Real.sin_arctan, div_le_iff₀ hsq0]
    nlinarith [hsqle, hsq0]
  have htot : calculate_total_resistance
      (calculate_rolling_resistance 1500 0.010 GRAVITY)
      (calculate_drag_force (convert_kmh_to_ms 10) 0.28 2.2 AIR_DENSITY)
      (calculate_gradient_force 1500 (convert_slope_percent_to_radians (-10)) GRAVITY) < 0 := by
    simp only [calculate_total_resistance, calculate_rolling_resistance, calculate_drag_force,
      calculate_gradient_force, convert_kmh_to_ms, convert_slope_percent_to_radians,
      GRAVITY, AIR_DENSITY]
    nlinarith [hs]
  have hms : (0 : ℝ) < convert_kmh_to_ms 10 := by norm_num [convert_kmh_to_ms]
  have hkm : (0 : ℝ) < convert_ms_to_kmh (convert_kmh_to_ms 10) := by
    norm_num [convert_ms_to_kmh, convert_kmh_to_ms]
  have hpw : calculate_power_at_wheels
      (calculate_total_resistance
        (calculate_rolling_resistance 1500 0.010 GRAVITY)
        (calculate_drag_force (convert_kmh_to_ms 10) 0.28 2.2 AIR_DENSITY)
        (calculate_gradient_force 1500 (convert_slope_percent_to_radians (-10)) GRAVITY))
      (convert_kmh_to_ms 10) < 0 := mul_neg_of_neg_of_pos htot hms
  have hpb : calculate_power_at_wheels
      (calculate_total_resistance
        (calculate_rolling_resistance 1500 0.010 GRAVITY)
        (calculate_drag_force (convert_kmh_to_ms 10) 0.28 2.2 AIR_DENSITY)
        (calculate_gradient_force 1500 (convert_slope_percent_to_radians (-10)) GRAVITY))
      (convert_kmh_to_ms 10) / (0.88 : ℝ) < 0 := div_neg_of_neg_of_pos hpw (by norm_num)
  have hepk : convert_watts_to_kwh
      (calculate_power_at_wheels
        (calculate_total_resistance
          (calculate_rolling_resistance 1500 0.010 GRAVITY)
          (calculate_drag_force (convert_kmh_to_ms 10) 0.28 2.2 AIR_DENSITY)
          (calculate_gradient_force 1500 (convert_slope_percent_to_radians (-10)) GRAVITY))
        (convert_kmh_to_ms 10) / (0.88 : ℝ)) / convert_ms_to_kmh (convert_kmh_to_ms 10) < 0 := by
    apply div_neg_of_neg_of_pos _ hkm
    rw [convert_watts_to_kwh]
    exact div_neg_of_neg_of_pos hpb (by norm_num)
  refine ⟨_, runMain_ok 1500 0.010 0.28 2.2 50 10 (-10) 0.88 0.90 (by norm_num)
    (ne_of_gt hkm) (ne_of_lt hepk), ?_⟩
  exact div_neg_of_pos_of_neg (by norm_num [calculate_usable_battery_energy]) hepk

/-- C3 (code evaluated at the failing input): calling
`calculate_energy_per_km` with `speed_ms = 0` makes the division
`power_kwh / speed_km` raise `ZeroDivisionError` — there is no
precondition check and no `InvalidSpeed` error in the code; at zero
speed the function indeed never returns a numeric value, but only
because the unguarded division blows up. -/
theorem C3_zero_speed_raises_zero_division :
    ∀ power_battery_watts : ℝ,
      calculate_energy_per_km power_battery_watts 0 = .error .zeroDivisionError := by
  intro pb
  simp [calculate_energy_per_km, convert_ms_to_kmh]

/-- C4 (code evaluated at failing inputs): the core validates nothing.
A zero drivetrain efficiency reaches the division and raises
`ZeroDivisionError` inside `calculate_power_from_battery` instead of
being rejected beforehand with a named error; a negative speed is
accepted by `calculate_energy_per_km`, which returns a numeric value;
a negative mass is accepted by `calculate_rolling_resistance`. -/
theorem C4_core_performs_no_validation :
    calculate_power_from_battery 10626 0 = .error .zeroDivisionError ∧
    calculate_energy_per_km 12075 (-5) = .ok (-(161 / 240)) ∧
    calculate_rolling_resistance (-1500) 0.010 9.81 = -(147.15) := by
  refine ⟨by rw [calculate_power_from_battery, if_pos rfl], ?_, ?_⟩
  · rw [calculate_energy_per_km]
    norm_num [convert_watts_to_kwh, convert_ms_to_kmh]
  · norm_num [calculate_rolling_resistance]

/-- C5: `convert_slope_percent_to_radians` computes
`atan(slope_percent / 100)` for every real slope percentage (it is a
total function), and it is not the naive degrees-to-radians scaling:
at 100 % the two conversions disagree. -/
theorem C5_slope_conversion_is_arctan :
    (∀ slope_percent : ℝ,
       convert_slope_percent_to_radians slope_percent = Real.arctan (slope_percent / 100)) ∧
    convert_slope_percent_to_radians 100 ≠ convert_degrees_to_radians 100 := by
  refine ⟨fun _ => rfl, ?_⟩
  rw [convert_slope_percent_to_radians, convert_degrees_to_radians]
  norm_num [Real.arctan_one]
  intro h
  nlinarith [Real.pi_pos, h]

/-- C6: converting a non-negative speed from m/s to km/h and back to
m/s returns it exactly (the 3.6 scalings are mutual inverses), and the
slope conversion maps 0 % to an angle of 0 rad. -/
theorem C6_speed_roundtrip :
    (∀ x : ℝ, 0 ≤ x → convert_kmh_to_ms (convert_ms_to_kmh x) = x) ∧
    convert_slope_percent_to_radians 0 = 0 := by
  constructor
  · intro x _
    rw [convert_kmh_to_ms, convert_ms_to_kmh]
    norm_num
  · rw [convert_slope_percent_to_radians]
    norm_num [Real.arctan_zero]

/-- Witness for C6 at the concrete speed 7 m/s. -/
theorem C6_speed_roundtrip_witness :
    0 ≤ (7 : ℝ) ∧ convert_kmh_to_ms (convert_ms_to_kmh 7) = 7 :=
  ⟨by norm_num, C6_speed_roundtrip.1 7 (by norm_num)⟩

/-- C7: for fixed positive drag coefficient, frontal area and air
density, `calculate_drag_force` equals
`0.5 * Cd * frontal_area * air_density * speed²`, is monotonically
non-decreasing in the speed for non-negative speeds, and vanishes at
speed 0. -/
theorem C7_drag_force_properties (Cd frontal_area air_density : ℝ)
    (hCd : 0 < Cd) (hfa : 0 < frontal_area) (hρ : 0 < air_density) :
    (∀ s : ℝ, calculate_drag_force s Cd frontal_area air_density =
       0.5 * Cd * frontal_area * air_density * s ^ 2) ∧
    (∀ s₁ s₂ : ℝ, 0 ≤ s₁ → s₁ ≤ s₂ →
       calculate_drag_force s₁ Cd frontal_area air_density ≤
         calculate_drag_force s₂ Cd frontal_area air_density) ∧
    calculate_drag_force 0 Cd frontal_area air_density = 0 := by
  refine ⟨fun _ => rfl, ?_, by rw [calculate_drag_force]; ring⟩
  intro s₁ s₂ h1 h12
  rw [calculate_drag_force, calculate_drag_force]
  have hsq : s₁ ^ 2 ≤ s₂ ^ 2 := by nlinarith
  have hc : (0 : ℝ) ≤ 0.5 * Cd * frontal_area * air_density := by positivity
  exact mul_le_mul_of_nonneg_left hsq hc

/-- Witness for C7 at Cd = 0.28, area = 2.2, density = 1.225, with the
monotonicity instantiated at speeds 5 and 10 m/s. -/
theorem C7_drag_force_properties_witness :
    0 < (0.28 : ℝ) ∧ 0 < (2.2 : ℝ) ∧ 0 < (1.225 : ℝ) ∧
    calculate_drag_force 10 0.28 2.2 1.225 = 0.5 * 0.28 * 2.2 * 1.225 * 10 ^ 2 ∧
    calculate_drag_force 5 0.28 2.2 1.225 ≤ calculate_drag_force 10 0.28 2.2 1.225 ∧
    calculate_drag_force 0 0.28 2.2 1.225 = 0 := by
  have h := C7_drag_force_properties 0.28 2.2 1.225 (by norm_num) (by norm_num) (by norm_num)
  exact ⟨by norm_num, by norm_num, by norm_num, h.1 10,
         h.2.1 5 10 (by norm_num) (by norm_num), h.2.2⟩

/-- C8: `calculate_range` is strictly decreasing in the energy-per-km
for fixed positive usable energy (over positive consumptions, where the
division succeeds), and strictly increasing in the usable energy for
fixed positive energy-per-km. -/
theorem C8_range_monotonicity :
    (∀ U e₁ e₂ : ℝ, 0 < U → 0 < e₁ → e₁ < e₂ →
       calculate_range U e₁ = .ok (U / e₁) ∧ calculate_range U e₂ = .ok (U / e₂) ∧
       U / e₂ < U / e₁) ∧
    (∀ e U₁ U₂ : ℝ, 0 < e → U₁ < U₂ →
       calculate_range U₁ e = .ok (U₁ / e) ∧ calculate_range U₂ e = .ok (U₂ / e) ∧
       U₁ / e < U₂ / e) := by
  constructor
  · intro U e₁ e₂ hU h1 h12
    have h2 : (0 : ℝ) < e₂ := h1.trans h12
    exact ⟨by rw [calculate_range, if_neg (ne_of_gt h1)],
           by rw [calculate_range, if_neg (ne_of_gt h2)],
           div_lt_div_of_pos_left hU h1 h12⟩
  · intro e U₁ U₂ he hU
    exact ⟨by rw [calculate_range, if_neg (ne_of_gt he)],
           by rw [calculate_range, if_neg (ne_of_gt he)],
           by gcongr⟩

/-- Witness for C8 at usable energy 45 kWh with consumptions 0.1 and
0.2 kWh/km, and at consumption 0.1 kWh/km with energies 45 and 50 kWh. -/
theorem C8_range_monotonicity_witness :
    (0 < (45 : ℝ) ∧ 0 < (1 / 10 : ℝ) ∧ (1 / 10 : ℝ) < 2 / 10 ∧
     calculate_range 45 (1 / 10) = .ok (45 / (1 / 10)) ∧
     calculate_range 45 (2 / 10) = .ok (45 / (2 / 10)) ∧
     (45 : ℝ) / (2 / 10) < 45 / (1 / 10)) ∧
    (0 < (1 / 10 : ℝ) ∧ (45 : ℝ) < 50 ∧
     calculate_range 45 (1 / 10) = .ok (45 / (1 / 10)) ∧
     calculate_range 50 (1 / 10) = .ok (50 / (1 / 10)) ∧
     (45 : ℝ) / (1 / 10) < 50 / (1 / 10)) := by
  have h1 := C8_range_monotonicity.1 45 (1 / 10) (2 / 10) (by norm_num) (by norm_num) (by norm_num)
  have h2 := C8_range_monotonicity.2 (1 / 10) 45 50 (by norm_num) (by norm_num)
  exact ⟨⟨by norm_num, by norm_num, by norm_num, h1.1, h1.2.1, h1.2.2⟩,
         ⟨by norm_num, by norm_num, h2.1, h2.2.1, h2.2.2⟩⟩

/-- C9: for positive mass and gravity, the gradient force vanishes at
slope angle 0, is strictly increasing in the angle on (−π/2, π/2), and
its sign matches the sign of the angle (positive uphill, negative
downhill). -/
theorem C9_gradient_force_properties (mass g : ℝ) (hm : 0 < mass) (hg : 0 < g) :
    calculate_gradient_force mass 0 g = 0 ∧
    (∀ θ₁ θ₂ : ℝ, -(Real.pi / 2) < θ₁ → θ₁ < θ₂ → θ₂ < Real.pi / 2 →
       calculate_gradient_force mass θ₁ g < calculate_gradient_force mass θ₂ g) ∧
    (∀ θ : ℝ, 0 < θ → θ < Real.pi / 2 → 0 < calculate_gradient_force mass θ g) ∧
    (∀ θ : ℝ, -(Real.pi / 2) < θ → θ < 0 → calculate_gradient_force mass θ g < 0) := by
  have hmg : 0 < mass * g := mul_pos hm hg
  refine ⟨by rw [calculate_gradient_force]; norm_num, ?_, ?_, ?_⟩
  · intro θ₁ θ₂ ha hb hc
    rw [calculate_gradient_force, calculate_gradient_force, mul_assoc, mul_assoc]
    refine mul_lt_mul_of_pos_left ?_ hm
    refine mul_lt_mul_of_pos_left ?_ hg
    exact Real.strictMonoOn_sin ⟨ha.le, (hb.trans hc).le⟩ ⟨(ha.trans hb).le, hc.le⟩ hb
  · intro θ h0 hhalf
    rw [calculate_gradient_force]
    have : 0 < Real.sin θ :=
      Real.sin_pos_of_pos_of_lt_pi h0 (by nlinarith [Real.pi_pos])
    positivity
  · intro θ hlo hhi
    rw [calculate_gradient_force]
    have hneg : Real.sin θ < 0 := by
      have : 0 < Real.sin (-θ) :=
        Real.sin_pos_of_pos_of_lt_pi (by linarith) (by nlinarith [Real.pi_pos])
      rw [Real.sin_neg] at this
      linarith
    exact mul_neg_of_pos_of_neg hmg hneg

/-- Witness for C9 at mass 1500 kg, g = 9.81, with the angle facts
instantiated at 0, 1 and −1 rad. -/
theorem C9_gradient_force_properties_witness :
    0 < (1500 : ℝ) ∧ 0 < (9.81 : ℝ) ∧
    calculate_gradient_force 1500 0 9.81 = 0 ∧
    calculate_gradient_force 1500 0 9.81 < calculate_gradient_force 1500 1 9.81 ∧
    0 < calculate_gradient_force 1500 1 9.81 ∧
    calculate_gradient_force 1500 (-1) 9.81 < 0 := by
  have h := C9_gradient_force_properties 1500 9.81 (by norm_num) (by norm_num)
  have hpi := Real.pi_gt_three
  exact ⟨by norm_num, by norm_num, h.1,
         h.2.1 0 1 (by nlinarith) (by norm_num) (by nlinarith),
         h.2.2.1 1 (by norm_num) (by nlinarith),
         h.2.2.2 (-1) (by nlinarith) (by norm_num)⟩

/-- C10: every pair of values `get_system_parameters` hands to the
pipeline satisfies drivetrain efficiency = accepted value / 100 ∈
[0.70, 0.98] and battery usable fraction = accepted value / 100 ∈
[0.70, 1.00]; both are strictly positive, so the efficiency division in
`calculate_power_from_battery` succeeds for every UI-sourced parameter
— the core itself performs no such check. -/
theorem C10_system_parameters_safe :
    ∀ (eff_lines usable_lines : List InputLine) (e u : ℝ),
      get_system_parameters eff_lines usable_lines = some (e, u) →
      (0.70 ≤ e ∧ e ≤ 0.98) ∧ (0.70 ≤ u ∧ u ≤ 1.00) ∧ 0 < e ∧ 0 < u ∧
      ∀ pw : ℝ, calculate_power_from_battery pw e = .ok (pw / e) := by
  intro el ul e u h
  rw [get_system_parameters] at h
  cases heq1 : get_user_input el (some 70) (some 98) (some 88) with
  | none => rw [heq1] at h; exact absurd h (by simp)
  | some eff =>
    rw [heq1] at h
    cases heq2 : get_user_input ul (some 70) (some 100) (some 90) with
    | none => rw [heq2] at h; exact absurd h (by simp)
    | some us =>
      rw [heq2] at h
      simp only [Option.some.injEq, Prod.mk.injEq] at h
      obtain ⟨he, hu⟩ := h
      subst he; subst hu
      have h1 := get_user_input_bounds 70 98 88 (by norm_num) (by norm_num) el eff heq1
      have h2 := get_user_input_bounds 70 100 90 (by norm_num) (by norm_num) ul us heq2
      have hepos : (0 : ℝ) < eff / 100 := by linarith [h1.1]
      refine ⟨⟨by linarith [h1.1], by linarith [h1.2]⟩,
              ⟨by linarith [h2.1], by linarith [h2.2]⟩, hepos, by linarith [h2.1], ?_⟩
      intro pw
      rw [calculate_power_from_battery, if_neg (ne_of_gt hepos)]

/-- Witness for C10 on the concrete input script "blank line (accept
default 88), then a junk line followed by 90": the UI returns
(0.88, 0.90) and the guarantees hold there. -/
theorem C10_system_parameters_safe_witness :
    get_system_parameters [InputLine.blank] [InputLine.junk, InputLine.num 90] =
      some (0.88, 0.90) ∧
    ((0.70 ≤ (0.88 : ℝ) ∧ (0.88 : ℝ) ≤ 0.98) ∧
     (0.70 ≤ (0.90 : ℝ) ∧ (0.90 : ℝ) ≤ 1.00) ∧
     0 < (0.88 : ℝ) ∧ 0 < (0.90 : ℝ) ∧
     ∀ pw : ℝ, calculate_power_from_battery pw 0.88 = .ok (pw / 0.88)) := by
  have heval : get_system_parameters [InputLine.blank] [InputLine.junk, InputLine.num 90] =
      some (0.88, 0.90) := by
    norm_num [get_system_parameters, get_user_input]
  exact ⟨heval, C10_system_parameters_safe [InputLine.blank] [InputLine.junk, InputLine.num 90]
    0.88 0.90 heval⟩
